import Mathlib

/-!
# Verification of the BMO backend conversation core

Shallow embedding of `app/services/conversation.py` (the `ConversationService`
class) from the BMO-AI repository: the model-fallback orchestrator with
per-model retry/backoff, the response contract defaulting, session handling,
and the candidate-list construction.

External collaborators are modelled at their interface boundary:
* the OpenRouter chat client (`OpenRouterClient.chat`, not in the core
  sources) is a function from call index to a classified outcome
  (success / HTTP status error / request error), exactly the classification
  `_chat_with_retry` switches on;
* Python's `json.loads` is modelled by its outcome, `Option Json`
  (`none` = `json.JSONDecodeError`);
* the speech service `synthesize` is a function from the narration to an
  `Except` outcome;
* the session store (`app/services/session_store.py` is not among the core
  sources) is modelled from the spec, see `SessionStore` below.

Python values flowing out of `json.loads` are dynamically typed; we model
them with a `Json` inductive together with Python truthiness (`pyOr` models
the `x or y` idiom used for field defaulting) and `Json.get?` models
`dict.get`, which raises `AttributeError` on a non-dict receiver.
-/

/-- A JSON value as produced by Python's `json.loads`.  `jnull` doubles as
Python's `None` (also what `dict.get` returns for a missing key). -/
inductive Json where
  | jnull : Json
  | jbool : Bool → Json
  | jnum : Int → Json
  | jstr : String → Json
  | jarr : List Json → Json
  | jobj : List (String × Json) → Json

/-- Python truthiness of a JSON value (`bool(x)`): `None`, `False`, `0`,
`""`, `[]`, `\x7b\x7d` are falsy, everything else truthy. -/
def Json.truthy : Json → Bool
  | .jnull => false
  | .jbool b => b
  | .jnum n => n != 0
  | .jstr s => s != ""
  | .jarr xs => !xs.isEmpty
  | .jobj fs => !fs.isEmpty

/-- Lookup of a key in the field list of a JSON object. -/
def jsonLookup : List (String × Json) → String → Option Json
  | [], _ => none
  | (k, v) :: rest, key => if k = key then some v else jsonLookup rest key

/-- Python's `parsed.get(key)`: on a dict, the stored value (or `None` when
the key is absent); on any non-dict receiver it raises `AttributeError`,
modelled as `Except.error`. -/
def Json.get? : Json → String → Except Unit Json
  | .jobj fields, key =>
      match jsonLookup fields key with
      | some v => .ok v
      | none => .ok .jnull
  | _, _ => .error ()

/-- Python's `x or y`: `x` when truthy, else `y`. -/
def pyOr (x y : Json) : Json := if x.truthy then x else y

/-- A raised FastAPI `HTTPException`: status code and detail message. -/
structure HTTPExc where
  status : Nat
  detail : String
deriving DecidableEq

/-- One turn of a session history: a `role`/`content` message dict.  The
content is a `Json` value because the narration appended by
`generate_response` is whatever dynamic value the defaulting produced. -/
structure Turn where
  role : String
  content : Json

/-- The classified outcome of one `OpenRouterClient.chat` call, exactly the
cases `_chat_with_retry` distinguishes: a successful completion text, an
`httpx.HTTPStatusError` carrying the response status code, or an
`httpx.RequestError` (connection error / timeout). -/
inductive ChatOutcome where
  | success : String → ChatOutcome
  | statusError : Nat → ChatOutcome
  | requestError : ChatOutcome

/-- The observable behaviour of one `_chat_with_retry` run: the returned
completion or raised `HTTPException`, the indices of the chat attempts that
were made, and the delays passed to `asyncio.sleep`, in order. -/
structure RetryRes where
  result : Except HTTPExc String
  calls : List Nat
  sleeps : List Nat

namespace ConversationService

def authDetail : String :=
  "OpenRouter rejected the API key (401). Verify OPENROUTER_API_KEY and that the model is accessible."

def rateLimitDetail : String :=
  "OpenRouter rate limit reached. Please retry in a moment."

def rejectedDetail : String := "OpenRouter rejected the request"

def couldNotReachDetail : String := "Could not reach OpenRouter"

def unavailableDetail : String := "OpenRouter is unavailable right now"

/-- The body of `_chat_with_retry`'s `for attempt in range(retries)` loop.
`backend i` is the outcome of the `(i+1)`-th chat call to this model;
`attempt = retries - remaining` is the current loop index and `delay` the
current backoff delay (time-units; `1.0` doubling, so exact as a `Nat`).
The `remaining = 0` base case is the fall-through after the loop. -/
def chatLoop (backend : Nat → ChatOutcome) : Nat → Nat → Nat → RetryRes
  | 0, _, _ => ⟨.error ⟨502, unavailableDetail⟩, [], []⟩
  | r + 1, attempt, delay =>
    match backend attempt with
    | .success t => ⟨.ok t, [attempt], []⟩
    | .statusError code =>
      if code = 401 then
        ⟨.error ⟨401, authDetail⟩, [attempt], []⟩
      else if code = 429 ∧ 0 < r then
        let rest := chatLoop backend r (attempt + 1) (delay * 2)
        ⟨rest.result, attempt :: rest.calls, delay :: rest.sleeps⟩
      else if code = 429 then
        ⟨.error ⟨429, rateLimitDetail⟩, [attempt], []⟩
      else
        ⟨.error ⟨if code = 0 then 502 else code, rejectedDetail⟩, [attempt], []⟩
    | .requestError =>
      if 0 < r then
        let rest := chatLoop backend r (attempt + 1) (delay * 2)
        ⟨rest.result, attempt :: rest.calls, delay :: rest.sleeps⟩
      else
        ⟨.error ⟨502, couldNotReachDetail⟩, [attempt], []⟩

/-- The function `_chat_with_retry(messages, model=m, retries=retries)`, with the chat
client for the fixed `messages`/`m` abstracted as `backend`.  Starts at
attempt `0` with delay `1.0`. -/
def chat_with_retry (backend : Nat → ChatOutcome) (retries : Nat) : RetryRes :=
  chatLoop backend retries 0 1

/-- The observable behaviour of one `_chat_with_models` run: the result and,
per candidate actually tried and in order, its name with the attempt indices
and sleep delays of its retry run. -/
structure ModelsRes where
  result : Except HTTPExc String
  trace : List (String × List Nat × List Nat)

/-- The aggregate detail string built after the candidate loop falls
through: `"All OpenRouter models failed. "`, extended by the recorded
per-candidate reasons joined with `" | "` when any were recorded. -/
def aggDetail (errors : List String) : String :=
  "All OpenRouter models failed. " ++
    (if errors.isEmpty then "" else String.intercalate " | " errors)

/-- The body of `_chat_with_models`'s `for model in self.model_candidates`
loop, with the recorded `errors` list threaded through.  `chat msgs m i` is
the outcome of the `(i+1)`-th chat call to model `m` with messages `msgs`. -/
def chatModelsLoop (msgs : List Turn) (chat : List Turn → String → Nat → ChatOutcome) :
    List String → List String → ModelsRes
  | [], errors => ⟨.error ⟨502, aggDetail errors⟩, []⟩
  | m :: rest, errors =>
    let r := chat_with_retry (chat msgs m) 3
    match r.result with
    | .ok t => ⟨.ok t, [(m, r.calls, r.sleeps)]⟩
    | .error e =>
      if e.status = 401 then
        ⟨.error e, [(m, r.calls, r.sleeps)]⟩
      else
        let res := chatModelsLoop msgs chat rest (errors ++ [m ++ ": " ++ e.detail])
        ⟨res.result, (m, r.calls, r.sleeps) :: res.trace⟩

/-- The function `_chat_with_models(messages)` over the candidate list, starting with an
empty `errors` list. -/
def chat_with_models (msgs : List Turn) (chat : List Turn → String → Nat → ChatOutcome)
    (candidates : List String) : ModelsRes :=
  chatModelsLoop msgs chat candidates []

/-- The candidate-list construction in `ConversationService.__init__`:
`models = list(settings.openrouter_models or [])`; insert the preferred
`settings.openrouter_model` at the front when it is truthy and not already
in the list; fall back to `[settings.openrouter_model]` when empty. -/
def buildCandidates (openrouter_models : List String) (openrouter_model : String) :
    List String :=
  let models := openrouter_models
  let models :=
    if openrouter_model ≠ "" ∧ openrouter_model ∉ models then
      openrouter_model :: models
    else
      models
  if models.isEmpty then [openrouter_model] else models

end ConversationService

/-- The errors of the session store contract. -/
inductive SessionErr where
  | duplicateSession : SessionErr
  | unknownSession : SessionErr
deriving DecidableEq

/-- The session store state: per-session ordered turn history, keyed by
session id. -/
abbrev Store := List (String × List Turn)

/-- Lookup of a session id in the store. -/
def lookupSession : Store → String → Option (List Turn)
  | [], _ => none
  | (k, v) :: rest, sid => if k = sid then some v else lookupSession rest sid

/-- Replace the turn list of an existing session id (first occurrence). -/
def updateSession : Store → String → List Turn → Store
  | [], _, _ => []
  | (k, v) :: rest, sid, ts =>
    if k = sid then (k, ts) :: rest else (k, v) :: updateSession rest sid ts

namespace SessionStore

/-- Modelled from the spec: `app/services/session_store.py` is not among the
core sources; §4.1 defines `create(sessionId)` as registering an empty turn
sequence, failing with `DuplicateSessionError` when the id already exists. -/
def create (store : Store) (sid : String) : Except SessionErr Store :=
  match lookupSession store sid with
  | some _ => .error .duplicateSession
  | none => .ok (store ++ [(sid, [])])

/-- Modelled from the spec: §4.1 defines `append(sessionId, role, content)`
as appending a Turn to the session's history, failing with
`UnknownSessionError` when the session does not exist. -/
def append (store : Store) (sid role : String) (content : Json) :
    Except SessionErr Store :=
  match lookupSession store sid with
  | none => .error .unknownSession
  | some ts => .ok (updateSession store sid (ts ++ [⟨role, content⟩]))

/-- Modelled from the spec: §4.1 defines `getHistory(sessionId)` as a
snapshot of the session's turns in append order, failing with
`UnknownSessionError` when the session does not exist. -/
def get_history (store : Store) (sid : String) : Except SessionErr (List Turn) :=
  match lookupSession store sid with
  | none => .error .unknownSession
  | some ts => .ok ts

end SessionStore

/-- The synthesized speech payload returned by `SpeechService.synthesize`. -/
structure SpeechPayload where
  mime_type : String
  base64 : String

/-- An error aborting a `generate_response` run: a raised `HTTPException`,
a session-store error, or Python's `AttributeError` from calling `.get` on
a non-dict parse result. -/
inductive GenError where
  | http : HTTPExc → GenError
  | session : SessionErr → GenError
  | attrError : GenError
deriving DecidableEq

/-- The composite result dict returned by a successful `generate_response`. -/
structure TurnResult where
  session_id : String
  transcript : String
  narration : Json
  destination : Json
  directions : Json
  mode : Json
  speech : SpeechPayload

namespace ConversationService

def SYSTEM_PROMPT : String :=
  "You are BMO, an autonomous campus tour guide robot at Alamein International University. " ++
  "Respond with helpful directions, friendly tone, and actionable navigation steps. " ++
  "Always answer using compact JSON with the keys: narration (string), destination (string), " ++
  "directions (array of strings), and mode (one of: NAVIGATING, SPEAKING). " ++
  "If the user request does not require navigation, set destination to \"General\" and mode to SPEAKING."

def narrationDefault : String := "Let me find that for you."

def invalidJsonDetail : String := "Model returned invalid JSON"

/-- The method `ConversationService.start_session`, with the freshly drawn
`str(uuid.uuid4())` passed in as `sid` and the configured
`settings.default_greeting` as `greeting`: create the session, append the
greeting as the first assistant turn, return the id and the greeting
together with the updated store. -/
def start_session (store : Store) (sid greeting : String) :
    Except SessionErr ((String × String) × Store) :=
  match SessionStore.create store sid with
  | .error e => .error e
  | .ok store1 =>
    match SessionStore.append store1 sid "assistant" (.jstr greeting) with
    | .error e => .error e
    | .ok store2 => .ok ((sid, greeting), store2)

/-- The method `ConversationService.generate_response(session_id, transcript)`.

`chatParsed msgs` is the composite outcome of `self._chat_with_models(msgs)`
followed by `json.loads` on the returned raw text: a raised `HTTPException`,
or the parse outcome of the raw text (`none` = `json.JSONDecodeError`).
`synthesize` is the speech collaborator on the narration value.

Returns the outcome together with the store as left behind by the run. -/
def generate_response (chatParsed : List Turn → Except HTTPExc (Option Json))
    (synthesize : Json → Except HTTPExc SpeechPayload)
    (store : Store) (session_id transcript : String) :
    Except GenError TurnResult × Store :=
  match SessionStore.append store session_id "user" (.jstr transcript) with
  | .error e => (.error (.session e), store)
  | .ok store1 =>
    match SessionStore.get_history store1 session_id with
    | .error e => (.error (.session e), store1)
    | .ok history =>
      let messages := ⟨"system", .jstr SYSTEM_PROMPT⟩ :: history
      match chatParsed messages with
      | .error e => (.error (.http e), store1)
      | .ok none => (.error (.http ⟨502, invalidJsonDetail⟩), store1)
      | .ok (some parsed) =>
        match parsed.get? "narration", parsed.get? "destination",
            parsed.get? "directions", parsed.get? "mode" with
        | .ok n, .ok d, .ok dirs, .ok m =>
          let narration := pyOr n (.jstr narrationDefault)
          let destination := pyOr d (.jstr "General")
          let directions := pyOr dirs (.jarr [])
          let mode := pyOr m (.jstr "SPEAKING")
          match SessionStore.append store1 session_id "assistant" narration with
          | .error e => (.error (.session e), store1)
          | .ok store2 =>
            match synthesize narration with
            | .error e => (.error (.http e), store2)
            | .ok speech =>
              (.ok ⟨session_id, transcript, narration, destination, directions, mode, speech⟩,
                store2)
        | _, _, _, _ => (.error .attrError, store1)

end ConversationService

/-! ## Derived definitions used by the theorems -/

/-- Whether a JSON value is an object (a Python dict). -/
def Json.isObj : Json → Bool
  | .jobj _ => true
  | _ => false

/-- Python's `parsed.get(key)` on a dict as a total function: the stored value, or
`None` (`jnull`) when the key is absent. -/
def jsonGetD (fields : List (String × Json)) (key : String) : Json :=
  match jsonLookup fields key with
  | some v => v
  | none => .jnull

/-- Python's `parsed.get(key) or default`, the defaulting idiom of
`generate_response` on a decoded object. -/
def fieldOr (fields : List (String × Json)) (key : String) (dflt : Json) : Json :=
  pyOr (jsonGetD fields key) dflt

/-! ## Result accessors and defaulting lemmas -/

/-- Whether a `generate_response` outcome is a success. -/
def genOk (out : Except GenError TurnResult × Store) : Bool :=
  match out.1 with
  | .ok _ => true
  | .error _ => false

/-- The narration of a successful `generate_response` outcome. -/
def resNarration (out : Except GenError TurnResult × Store) : Json :=
  match out.1 with
  | .ok r => r.narration
  | .error _ => .jnull

/-- The destination of a successful `generate_response` outcome. -/
def resDestination (out : Except GenError TurnResult × Store) : Json :=
  match out.1 with
  | .ok r => r.destination
  | .error _ => .jnull

/-- The directions of a successful `generate_response` outcome. -/
def resDirections (out : Except GenError TurnResult × Store) : Json :=
  match out.1 with
  | .ok r => r.directions
  | .error _ => .jnull

/-- The mode of a successful `generate_response` outcome. -/
def resMode (out : Except GenError TurnResult × Store) : Json :=
  match out.1 with
  | .ok r => r.mode
  | .error _ => .jnull

namespace ConversationService

/-- The retry run `_chat_with_models` performs for candidate `m` (default
`retries = 3`). -/
def retryFor (msgs : List Turn) (chat : List Turn → String → Nat → ChatOutcome)
    (m : String) : RetryRes :=
  chat_with_retry (chat msgs m) 3

/-- Candidate `m`'s retry run raises a non-auth `HTTPException` (it fails,
and not with status 401). -/
def failsNonAuth (msgs : List Turn) (chat : List Turn → String → Nat → ChatOutcome)
    (m : String) : Prop :=
  ∃ e, (retryFor msgs chat m).result = .error e ∧ e.status ≠ 401

/-- The reason `_chat_with_models` records for a failed candidate `m`:
`f"{model}: {exc.detail}"` for the exception its retry run raised. -/
def reasonOf (msgs : List Turn) (chat : List Turn → String → Nat → ChatOutcome)
    (m : String) : String :=
  m ++ ": " ++
    (match (retryFor msgs chat m).result with
      | .error e => e.detail
      | .ok _ => "")

/-- The trace entry of candidate `m`'s retry run. -/
def traceOf (msgs : List Turn) (chat : List Turn → String → Nat → ChatOutcome)
    (m : String) : String × List Nat × List Nat :=
  (m, (retryFor msgs chat m).calls, (retryFor msgs chat m).sleeps)

/-- The message context `generate_response` sends to the fallback
orchestrator when the session's stored history was `ts`: the fixed system
prompt (not persisted), the stored turns, then the new user transcript. -/
def messagesFor (ts : List Turn) (transcript : String) : List Turn :=
  ⟨"system", .jstr SYSTEM_PROMPT⟩ :: (ts ++ [⟨"user", .jstr transcript⟩])

end ConversationService

/-! ## Helper lemmas -/

namespace ConversationService

/-- A retry run with at least one remaining attempt never produces the
fall-through error: every loop iteration either returns or raises. -/
theorem chatLoop_ne_unavailable (backend : Nat → ChatOutcome) :
    ∀ r attempt delay, 1 ≤ r →
      (chatLoop backend r attempt delay).result ≠ .error ⟨502, unavailableDetail⟩ := by
  intro r
  induction r with
  | zero => intro attempt delay h; omega
  | succ r ih =>
    intro attempt delay _
    simp only [chatLoop]
    cases backend attempt with
    | success t => simp
    | statusError code =>
      by_cases h401 : code = 401
      · simp [h401, authDetail, unavailableDetail]
      · by_cases hretry : code = 429 ∧ 0 < r
        · simp only [h401, if_false, hretry, if_true]
          exact ih (attempt + 1) (delay * 2) hretry.2
        · by_cases h429 : code = 429
          · have hr0 : ¬0 < r := fun hr => hretry ⟨h429, hr⟩
            simp [h401, hretry, h429, hr0, rateLimitDetail, unavailableDetail]
          · simp only [h401, if_false, hretry, h429]
            simp [rejectedDetail, unavailableDetail]
    | requestError =>
      by_cases hretry : 0 < r
      · simp only [hretry, if_true]
        exact ih (attempt + 1) (delay * 2) hretry
      · simp [hretry, couldNotReachDetail, unavailableDetail]

end ConversationService

/-! ## Claims about the fallback orchestrator -/

open ConversationService

/-- C1: if the first candidate's first chat call fails with status 401, the
whole fallback run fails immediately with the auth-configuration
`HTTPException 401`; the trace shows exactly one chat call (attempt `0`) to
the first candidate, no sleep, and no call to any remaining candidate. -/
theorem C1_auth_aborts_fallback (msgs : List Turn)
    (chat : List Turn → String → Nat → ChatOutcome) (A : String) (rest : List String)
    (hA : chat msgs A 0 = .statusError 401) :
    chat_with_models msgs chat (A :: rest) =
      ⟨.error ⟨401, authDetail⟩, [(A, [0], [])]⟩ := by
  simp [chat_with_models, chatModelsLoop, chat_with_retry, chatLoop, hA]

/-- Witness for C1 at a concrete backend. -/
theorem C1_auth_aborts_fallback_witness :
    (fun (_ : List Turn) (_ : String) (_ : Nat) => ChatOutcome.statusError 401) [] "A" 0 =
        .statusError 401 ∧
    chat_with_models []
        (fun _ _ _ => ChatOutcome.statusError 401) ["A", "B", "C"] =
      ⟨.error ⟨401, authDetail⟩, [("A", [0], [])]⟩ :=
  ⟨rfl, C1_auth_aborts_fallback [] _ "A" ["B", "C"] rfl⟩

/-- C2: (1) with candidates `[A, B]`, when every chat call to `A` is a
transient `httpx.RequestError` and the first call to `B` succeeds, the run
returns `B`'s completion, made exactly the 3 default attempts on `A` (with
backoff sleeps of 1 and 2 time-units, none before the final attempt) and
exactly 1 attempt on `B` with no sleep; (2) a rate-limit 429 outcome is
retried with backoff on the same candidate; (3) any other non-401 status
outcome is not retried: one single attempt is made on that candidate and
the loop moves on to the remaining candidates. -/
theorem C2_transient_retries_then_next_candidate :
    (∀ (msgs : List Turn) (chat : List Turn → String → Nat → ChatOutcome) (A B t),
      (∀ i, chat msgs A i = .requestError) → chat msgs B 0 = .success t →
      chat_with_models msgs chat [A, B] =
        ⟨.ok t, [(A, [0, 1, 2], [1, 2]), (B, [0], [])]⟩) ∧
    (∀ (msgs : List Turn) (chat : List Turn → String → Nat → ChatOutcome) (A t),
      chat msgs A 0 = .statusError 429 → chat msgs A 1 = .success t →
      chat_with_retry (chat msgs A) 3 = ⟨.ok t, [0, 1], [1]⟩) ∧
    (∀ (msgs : List Turn) (chat : List Turn → String → Nat → ChatOutcome) (A rest code),
      code ≠ 401 → code ≠ 429 → chat msgs A 0 = .statusError code →
      chat_with_models msgs chat (A :: rest) =
        ⟨(chatModelsLoop msgs chat rest [A ++ ": " ++ rejectedDetail]).result,
          (A, [0], []) ::
            (chatModelsLoop msgs chat rest [A ++ ": " ++ rejectedDetail]).trace⟩) := by
  refine ⟨?_, ?_, ?_⟩
  · intro msgs chat A B t hA hB
    simp [chat_with_models, chatModelsLoop, chat_with_retry, chatLoop, hA, hB,
      authDetail, couldNotReachDetail]
  · intro msgs chat A t h0 h1
    simp [chat_with_retry, chatLoop, h0, h1]
  · intro msgs chat A rest code h401 h429 hA
    have hs : (if code = 0 then 502 else code) ≠ 401 := by
      by_cases h0 : code = 0 <;> simp [h0, h401]
    simp [chat_with_models, chatModelsLoop, chat_with_retry, chatLoop, hA, h401, h429, hs]

/-- Witness for C2 at concrete backends. -/
theorem C2_transient_retries_then_next_candidate_witness :
    (∀ i, (fun (_ : List Turn) (m : String) (_ : Nat) =>
        if m = "B" then ChatOutcome.success "done" else .requestError) [] "A" i =
        .requestError) ∧
    chat_with_models []
        (fun _ m _ => if m = "B" then ChatOutcome.success "done" else .requestError)
        ["A", "B"] =
      ⟨.ok "done", [("A", [0, 1, 2], [1, 2]), ("B", [0], [])]⟩ :=
  ⟨fun _ => rfl,
    C2_transient_retries_then_next_candidate.1 [] _ "A" "B" "done" (fun _ => rfl) rfl⟩

/-- C10: whenever the retry loop runs with at least one attempt (in
particular under the default `retries = 3`), its fall-through error
`502 "OpenRouter is unavailable right now"` is never the outcome: every
iteration either returns a completion or raises. -/
theorem C10_fallthrough_unreachable (backend : Nat → ChatOutcome) (retries : Nat)
    (h : 1 ≤ retries) :
    (chat_with_retry backend retries).result ≠ .error ⟨502, unavailableDetail⟩ :=
  chatLoop_ne_unavailable backend retries 0 1 h

/-- Witness for C10 at a concrete backend. -/
theorem C10_fallthrough_unreachable_witness :
    1 ≤ 3 ∧
      (chat_with_retry (fun _ => ChatOutcome.requestError) 3).result ≠
        .error ⟨502, unavailableDetail⟩ :=
  ⟨by decide, C10_fallthrough_unreachable (fun _ => ChatOutcome.requestError) 3 (by decide)⟩

namespace ConversationService

/-- When every candidate fails without an auth error, the candidate loop
falls through to the aggregate error, accumulating one recorded reason per
candidate in list order after the already-recorded ones. -/
theorem chatModelsLoop_all_fail (msgs : List Turn)
    (chat : List Turn → String → Nat → ChatOutcome) :
    ∀ (candidates errors : List String),
      (∀ m ∈ candidates, failsNonAuth msgs chat m) →
      (chatModelsLoop msgs chat candidates errors).result =
        .error ⟨502, aggDetail (errors ++ candidates.map (reasonOf msgs chat))⟩ := by
  intro candidates
  induction candidates with
  | nil => intro errors _; simp [chatModelsLoop]
  | cons m rest ih =>
    intro errors h
    obtain ⟨e, he, hne⟩ := h m (by simp)
    have hrest : ∀ x ∈ rest, failsNonAuth msgs chat x := fun x hx => h x (by simp [hx])
    have hreason : reasonOf msgs chat m = m ++ ": " ++ e.detail := by
      simp [reasonOf, retryFor] at he ⊢
      rw [he]
    simp only [chatModelsLoop]
    simp only [retryFor] at he
    rw [he]
    simp only [hne, if_false]
    rw [ih (errors ++ [m ++ ": " ++ e.detail]) hrest]
    simp [hreason, List.append_assoc]

/-- The candidate loop stops at the first succeeding candidate: it returns
that candidate's completion and its trace lists exactly the failed prefix
followed by the succeeding candidate, independently of what comes after. -/
theorem chatModelsLoop_first_success (msgs : List Turn)
    (chat : List Turn → String → Nat → ChatOutcome) :
    ∀ (pre : List String) (m : String) (post : List String) (t : String)
      (errors : List String),
      (∀ x ∈ pre, failsNonAuth msgs chat x) →
      (retryFor msgs chat m).result = .ok t →
      chatModelsLoop msgs chat (pre ++ m :: post) errors =
        ⟨.ok t, pre.map (traceOf msgs chat) ++ [traceOf msgs chat m]⟩ := by
  intro pre
  induction pre with
  | nil =>
    intro m post t errors _ hm
    simp only [retryFor] at hm
    simp only [List.nil_append, chatModelsLoop]
    rw [hm]
    simp [traceOf, retryFor, hm]
  | cons x pre ih =>
    intro m post t errors h hm
    obtain ⟨e, he, hne⟩ := h x (by simp)
    simp only [retryFor] at he
    simp only [List.cons_append, chatModelsLoop]
    rw [he]
    simp only [hne, if_false, List.append_eq]
    rw [ih m post t _ (fun y hy => h y (by simp [hy])) hm]
    simp [traceOf, retryFor, he]

end ConversationService

/-- C3: for every message context and chat backend, (1) if every candidate
fails without an auth error, the fallback run fails with the single
aggregate 502 whose message lists each candidate's recorded failure reason
in candidate-list order; (2) the first succeeding candidate's completion is
returned immediately: the trace covers exactly the failed prefix and the
succeeding candidate, and no candidate after it is ever called. -/
theorem C3_aggregate_error_and_first_success (msgs : List Turn)
    (chat : List Turn → String → Nat → ChatOutcome) :
    (∀ candidates, (∀ m ∈ candidates, failsNonAuth msgs chat m) →
      (chat_with_models msgs chat candidates).result =
        .error ⟨502, aggDetail (candidates.map (reasonOf msgs chat))⟩) ∧
    (∀ pre m post t, (∀ x ∈ pre, failsNonAuth msgs chat x) →
      (retryFor msgs chat m).result = .ok t →
      chat_with_models msgs chat (pre ++ m :: post) =
        ⟨.ok t, pre.map (traceOf msgs chat) ++ [traceOf msgs chat m]⟩) := by
  constructor
  · intro candidates h
    simpa using chatModelsLoop_all_fail msgs chat candidates [] h
  · intro pre m post t h hm
    exact chatModelsLoop_first_success msgs chat pre m post t [] h hm

/-- Witness for C3 at concrete backends: two always-rejecting candidates for
the aggregate part; a failing candidate before a succeeding one (with a
third never-reached candidate) for the first-success part. -/
theorem C3_aggregate_error_and_first_success_witness :
    failsNonAuth [] (fun _ _ _ => ChatOutcome.statusError 500) "a" ∧
    failsNonAuth [] (fun _ _ _ => ChatOutcome.statusError 500) "b" ∧
    (chat_with_models [] (fun _ _ _ => ChatOutcome.statusError 500) ["a", "b"]).result =
      .error ⟨502, aggDetail
        (["a", "b"].map (reasonOf [] (fun _ _ _ => ChatOutcome.statusError 500)))⟩ ∧
    failsNonAuth [] (fun _ m _ =>
      if m = "b" then ChatOutcome.success "t" else .statusError 500) "a" ∧
    (retryFor [] (fun _ m _ =>
      if m = "b" then ChatOutcome.success "t" else .statusError 500) "b").result = .ok "t" ∧
    chat_with_models [] (fun _ m _ =>
        if m = "b" then ChatOutcome.success "t" else .statusError 500)
        (["a"] ++ "b" :: ["c"]) =
      ⟨.ok "t",
        ["a"].map (traceOf [] (fun _ m _ =>
          if m = "b" then ChatOutcome.success "t" else .statusError 500)) ++
        [traceOf [] (fun _ m _ =>
          if m = "b" then ChatOutcome.success "t" else .statusError 500) "b"]⟩ := by
  have h1 : failsNonAuth [] (fun _ _ _ => ChatOutcome.statusError 500) "a" :=
    ⟨⟨500, rejectedDetail⟩, rfl, by decide⟩
  have h2 : failsNonAuth [] (fun _ _ _ => ChatOutcome.statusError 500) "b" :=
    ⟨⟨500, rejectedDetail⟩, rfl, by decide⟩
  have h3 : failsNonAuth [] (fun _ m _ =>
      if m = "b" then ChatOutcome.success "t" else .statusError 500) "a" :=
    ⟨⟨500, rejectedDetail⟩, rfl, by decide⟩
  refine ⟨h1, h2, ?_, h3, rfl, ?_⟩
  · exact (C3_aggregate_error_and_first_success [] _).1 ["a", "b"]
      (by intro m hm; simp at hm; rcases hm with rfl | rfl <;> assumption)
  · exact (C3_aggregate_error_and_first_success [] _).2 ["a"] "b" ["c"] "t"
      (by intro x hx; simp at hx; subst hx; exact h3) rfl

/-! ## Session-store lemmas -/

/-- Appending a binding for an id not yet in the store makes lookup find it. -/
theorem lookupSession_append_fresh :
    ∀ (store : Store) (sid : String) (ts : List Turn),
      lookupSession store sid = none →
      lookupSession (store ++ [(sid, ts)]) sid = some ts
  | [], sid, ts, _ => by simp [lookupSession]
  | (k, v) :: rest, sid, ts, h => by
    simp only [lookupSession, List.cons_append] at h ⊢
    by_cases hk : k = sid
    · simp [hk] at h
    · simp only [hk, if_false] at h ⊢
      exact lookupSession_append_fresh rest sid ts h

/-- Updating an existing id makes lookup return the new turn list. -/
theorem lookupSession_update :
    ∀ (store : Store) (sid : String) (ts ts' : List Turn),
      lookupSession store sid = some ts →
      lookupSession (updateSession store sid ts') sid = some ts'
  | [], _, _, _, h => by simp [lookupSession] at h
  | (k, v) :: rest, sid, ts, ts', h => by
    by_cases hk : k = sid
    · simp [lookupSession, updateSession, hk]
    · simp only [lookupSession, updateSession, hk, if_false] at h ⊢
      exact lookupSession_update rest sid ts ts' h

/-- Two successive updates of the same id collapse to the second one. -/
theorem updateSession_updateSession :
    ∀ (store : Store) (sid : String) (A B : List Turn),
      updateSession (updateSession store sid A) sid B = updateSession store sid B
  | [], _, _, _ => rfl
  | (k, v) :: rest, sid, A, B => by
    by_cases hk : k = sid
    · simp [updateSession, hk]
    · simp [updateSession, hk, updateSession_updateSession rest sid A B]

/-- Updating an id that was appended at the end of a store that did not
contain it rewrites exactly that final binding. -/
theorem updateSession_append_fresh :
    ∀ (store : Store) (sid : String) (ts X : List Turn),
      lookupSession store sid = none →
      updateSession (store ++ [(sid, ts)]) sid X = store ++ [(sid, X)]
  | [], sid, ts, X, _ => by simp [updateSession]
  | (k, v) :: rest, sid, ts, X, h => by
    simp only [lookupSession] at h
    by_cases hk : k = sid
    · simp [hk] at h
    · simp only [hk, if_false] at h
      simp [updateSession, hk, updateSession_append_fresh rest sid ts X h]

/-! ## Claims about sessions and candidate construction -/

/-- C7: for every store and any drawn session id the store has not seen
(this freshness is what `str(uuid.uuid4())` provides, modelled as a
hypothesis), `start_session` creates the session, returns that id together
with the configured greeting, and immediately afterwards the session's
history is exactly one assistant Turn carrying the greeting. -/
theorem C7_start_session_fresh (store : Store) (sid greeting : String)
    (h : lookupSession store sid = none) :
    start_session store sid greeting =
      .ok ((sid, greeting), store ++ [(sid, [⟨"assistant", .jstr greeting⟩])]) ∧
    SessionStore.get_history (store ++ [(sid, [⟨"assistant", .jstr greeting⟩])]) sid =
      .ok [⟨"assistant", .jstr greeting⟩] := by
  have h1 := lookupSession_append_fresh store sid [] h
  have h2 := updateSession_append_fresh store sid []
    [⟨"assistant", .jstr greeting⟩] h
  constructor
  · simp [start_session, SessionStore.create, SessionStore.append, h, h1, h2]
  · simp [SessionStore.get_history,
      lookupSession_append_fresh store sid [⟨"assistant", .jstr greeting⟩] h]

/-- Witness for C7 at a concrete store and id. -/
theorem C7_start_session_fresh_witness :
    lookupSession [("other", [])] "s" = none ∧
    start_session [("other", [])] "s" "hello" =
      .ok (("s", "hello"), [("other", []), ("s", [⟨"assistant", .jstr "hello"⟩])]) ∧
    SessionStore.get_history [("other", []), ("s", [⟨"assistant", .jstr "hello"⟩])] "s" =
      .ok [⟨"assistant", .jstr "hello"⟩] := by
  have h := C7_start_session_fresh [("other", [])] "s" "hello" rfl
  exact ⟨rfl, h.1, h.2⟩

/-- Counterexample to C6 as stated: with configured models `["a", "b"]` and
preferred model `"b"`, the constructed candidate list is `["a", "b"]` — the
specified preferred model is not at position 0; and with configured models
`["a", "a"]` the constructed list keeps the duplicate. -/
theorem C6_candidates_cex :
    buildCandidates ["a", "b"] "b" = ["a", "b"] ∧
    ("b" : String) ≠ "" ∧
    (buildCandidates ["a", "b"] "b").head? ≠ some "b" ∧
    ¬(buildCandidates ["a", "a"] "b").Nodup := by
  refine ⟨by decide, by decide, by decide, by decide⟩

/-- C6 (amended): the candidate list built at construction contains the
configured preferred model whenever one is specified; it is `pref :: cfg`
(preferred at position 0) when the preferred model is not already among the
configured models; and it has no duplicates provided the configured model
list itself has none.  (Mutation: the orchestration functions
`chat_with_models` / `chat_with_retry` take the candidate list as a
read-only argument of a pure function, so no orchestration call can mutate
it.) -/
theorem C6_candidates_construction (cfg : List String) (pref : String) :
    (pref ≠ "" → pref ∈ buildCandidates cfg pref) ∧
    (pref ≠ "" → pref ∉ cfg → buildCandidates cfg pref = pref :: cfg) ∧
    (cfg.Nodup → (buildCandidates cfg pref).Nodup) := by
  by_cases hc : pref ≠ "" ∧ pref ∉ cfg
  · obtain ⟨hp, hnm⟩ := hc
    have hbuild : buildCandidates cfg pref = pref :: cfg := by
      simp [buildCandidates, hp, hnm]
    refine ⟨fun _ => ?_, fun _ _ => ?_, fun hnd => ?_⟩
    · simp [hbuild]
    · exact hbuild
    · simp [hbuild, List.nodup_cons, hnm, hnd]
  · by_cases he : cfg.isEmpty
    · have hcfg : cfg = [] := by simpa [List.isEmpty_iff] using he
      subst hcfg
      have hbuild : buildCandidates [] pref = [pref] := by
        have hp0 : ¬(pref ≠ "" ∧ pref ∉ ([] : List String)) := hc
        simp at hp0
        simp [buildCandidates, hp0]
      refine ⟨fun _ => ?_, fun _ _ => ?_, fun _ => ?_⟩
      · simp [hbuild]
      · exact hbuild
      · simp [hbuild]
    · have hbuild : buildCandidates cfg pref = cfg := by
        simp [buildCandidates, hc, he]
      refine ⟨fun hp => ?_, fun hp hnm => ?_, fun hnd => ?_⟩
      · have hm : pref ∈ cfg := by
          by_contra hnm
          exact hc ⟨hp, hnm⟩
        simp [hbuild, hm]
      · exact absurd ⟨hp, hnm⟩ hc
      · simp [hbuild, hnd]

/-- Witness for C6 (amended) at concrete configuration values. -/
theorem C6_candidates_construction_witness :
    ("p" : String) ≠ "" ∧ ("p" : String) ∉ (["x"] : List String) ∧
    (["x"] : List String).Nodup ∧
    "p" ∈ buildCandidates ["x"] "p" ∧
    buildCandidates ["x"] "p" = "p" :: ["x"] ∧
    (buildCandidates ["x"] "p").Nodup :=
  ⟨by decide, by decide, by decide,
    (C6_candidates_construction ["x"] "p").1 (by decide),
    (C6_candidates_construction ["x"] "p").2.1 (by decide) (by decide),
    (C6_candidates_construction ["x"] "p").2.2 (by decide)⟩

/-! ## The `generate_response` paths -/

/-- On an object, `Json.get?` always succeeds, with the `dict.get` value. -/
theorem Json.get?_obj (fields : List (String × Json)) (key : String) :
    (Json.jobj fields).get? key = .ok (jsonGetD fields key) := by
  cases h : jsonLookup fields key <;> simp [Json.get?, jsonGetD, h]

/-- On a non-object, `Json.get?` raises (`AttributeError`). -/
theorem Json.get?_nonobj (j : Json) (h : j.isObj = false) (key : String) :
    j.get? key = .error () := by
  cases j <;> first
    | rfl
    | simp [Json.isObj] at h

namespace ConversationService

/-- When the orchestrator raises, `generate_response` propagates the
exception, leaving the session with just the user turn appended. -/
theorem generate_response_chat_error
    (chatParsed : List Turn → Except HTTPExc (Option Json))
    (synthesize : Json → Except HTTPExc SpeechPayload)
    (store : Store) (sid transcript : String) (ts : List Turn) (e : HTTPExc)
    (hs : lookupSession store sid = some ts)
    (hc : chatParsed (messagesFor ts transcript) = .error e) :
    generate_response chatParsed synthesize store sid transcript =
      (.error (.http e),
        updateSession store sid (ts ++ [⟨"user", .jstr transcript⟩])) := by
  have hl := lookupSession_update store sid ts (ts ++ [⟨"user", .jstr transcript⟩]) hs
  simp only [messagesFor] at hc
  simp [generate_response, SessionStore.append, SessionStore.get_history, hs, hl, hc]

/-- When the raw completion is not decodable JSON, `generate_response`
raises the 502 contract error, leaving the session with just the user turn
appended. -/
theorem generate_response_invalid_json
    (chatParsed : List Turn → Except HTTPExc (Option Json))
    (synthesize : Json → Except HTTPExc SpeechPayload)
    (store : Store) (sid transcript : String) (ts : List Turn)
    (hs : lookupSession store sid = some ts)
    (hc : chatParsed (messagesFor ts transcript) = .ok none) :
    generate_response chatParsed synthesize store sid transcript =
      (.error (.http ⟨502, invalidJsonDetail⟩),
        updateSession store sid (ts ++ [⟨"user", .jstr transcript⟩])) := by
  have hl := lookupSession_update store sid ts (ts ++ [⟨"user", .jstr transcript⟩]) hs
  simp only [messagesFor] at hc
  simp [generate_response, SessionStore.append, SessionStore.get_history, hs, hl, hc]

/-- When the raw completion decodes to a non-object JSON value, the
`.get` calls raise `AttributeError`, leaving the session with just the user
turn appended. -/
theorem generate_response_nonobject
    (chatParsed : List Turn → Except HTTPExc (Option Json))
    (synthesize : Json → Except HTTPExc SpeechPayload)
    (store : Store) (sid transcript : String) (ts : List Turn) (j : Json)
    (hs : lookupSession store sid = some ts)
    (hc : chatParsed (messagesFor ts transcript) = .ok (some j))
    (hj : j.isObj = false) :
    generate_response chatParsed synthesize store sid transcript =
      (.error .attrError,
        updateSession store sid (ts ++ [⟨"user", .jstr transcript⟩])) := by
  have hl := lookupSession_update store sid ts (ts ++ [⟨"user", .jstr transcript⟩]) hs
  simp only [messagesFor] at hc
  simp [generate_response, SessionStore.append, SessionStore.get_history, hs, hl, hc,
    Json.get?_nonobj j hj]

/-- The successful-decode path with a succeeding synthesis: the defaulted
fields are returned and the user and assistant turns are committed. -/
theorem generate_response_object_ok
    (chatParsed : List Turn → Except HTTPExc (Option Json))
    (synthesize : Json → Except HTTPExc SpeechPayload)
    (store : Store) (sid transcript : String) (ts : List Turn)
    (fields : List (String × Json)) (payload : SpeechPayload)
    (hs : lookupSession store sid = some ts)
    (hc : chatParsed (messagesFor ts transcript) = .ok (some (.jobj fields)))
    (hsy : synthesize (fieldOr fields "narration" (.jstr narrationDefault)) = .ok payload) :
    generate_response chatParsed synthesize store sid transcript =
      (.ok ⟨sid, transcript,
          fieldOr fields "narration" (.jstr narrationDefault),
          fieldOr fields "destination" (.jstr "General"),
          fieldOr fields "directions" (.jarr []),
          fieldOr fields "mode" (.jstr "SPEAKING"), payload⟩,
        updateSession store sid
          ((ts ++ [⟨"user", .jstr transcript⟩]) ++
            [⟨"assistant", fieldOr fields "narration" (.jstr narrationDefault)⟩])) := by
  have hl := lookupSession_update store sid ts (ts ++ [⟨"user", .jstr transcript⟩]) hs
  simp only [messagesFor] at hc
  simp only [fieldOr] at hsy
  simp [generate_response, SessionStore.append, SessionStore.get_history, hs, hl, hc,
    Json.get?_obj, fieldOr, hsy, updateSession_updateSession]

/-- The successful-decode path with a failing synthesis: the synthesis
exception propagates, but the user and assistant turns remain committed. -/
theorem generate_response_object_synth_error
    (chatParsed : List Turn → Except HTTPExc (Option Json))
    (synthesize : Json → Except HTTPExc SpeechPayload)
    (store : Store) (sid transcript : String) (ts : List Turn)
    (fields : List (String × Json)) (e : HTTPExc)
    (hs : lookupSession store sid = some ts)
    (hc : chatParsed (messagesFor ts transcript) = .ok (some (.jobj fields)))
    (hsy : synthesize (fieldOr fields "narration" (.jstr narrationDefault)) = .error e) :
    generate_response chatParsed synthesize store sid transcript =
      (.error (.http e),
        updateSession store sid
          ((ts ++ [⟨"user", .jstr transcript⟩]) ++
            [⟨"assistant", fieldOr fields "narration" (.jstr narrationDefault)⟩])) := by
  have hl := lookupSession_update store sid ts (ts ++ [⟨"user", .jstr transcript⟩]) hs
  simp only [messagesFor] at hc
  simp only [fieldOr] at hsy
  simp [generate_response, SessionStore.append, SessionStore.get_history, hs, hl, hc,
    Json.get?_obj, fieldOr, hsy, updateSession_updateSession]

end ConversationService

namespace ConversationService

/-- An absent field defaults. -/
theorem fieldOr_absent (fields : List (String × Json)) (key : String) (dflt : Json)
    (h : jsonLookup fields key = none) : fieldOr fields key dflt = dflt := by
  simp [fieldOr, jsonGetD, h, pyOr, Json.truthy]

/-- An empty-string field defaults (it is falsy). -/
theorem fieldOr_empty_str (fields : List (String × Json)) (key : String) (dflt : Json)
    (h : jsonLookup fields key = some (.jstr "")) : fieldOr fields key dflt = dflt := by
  simp [fieldOr, jsonGetD, h, pyOr, Json.truthy]

/-- A non-empty string field is passed through as provided. -/
theorem fieldOr_str (fields : List (String × Json)) (key : String) (dflt : Json)
    (s : String) (hs : s ≠ "") (h : jsonLookup fields key = some (.jstr s)) :
    fieldOr fields key dflt = .jstr s := by
  simp [fieldOr, jsonGetD, h, pyOr, Json.truthy, hs]

/-- A non-empty array field is passed through as provided. -/
theorem fieldOr_arr (fields : List (String × Json)) (key : String) (dflt : Json)
    (l : List Json) (hl : l ≠ []) (h : jsonLookup fields key = some (.jarr l)) :
    fieldOr fields key dflt = .jarr l := by
  simp [fieldOr, jsonGetD, h, pyOr, Json.truthy, hl]

end ConversationService

/-! ## Claims about `generate_response` -/

/-- Counterexample to C4 as stated: the raw text `"5"` is valid JSON (so
`json.loads` succeeds, parsing to the number `5`) but cannot be decoded
into the expected Structured Turn Response structure; `generate_response`
then fails with Python's `AttributeError` (from `parsed.get` on a non-dict)
— an unclassified error, not the `UpstreamContractError`
`HTTPException(502, "Model returned invalid JSON")` the claim requires. -/
theorem C4_contract_error_cex :
    generate_response (fun _ => .ok (some (.jnum 5)))
        (fun _ => .ok ⟨"audio/mpeg", "AA"⟩) [("s", [])] "s" "hi" =
      (.error .attrError, [("s", [⟨"user", .jstr "hi"⟩])]) ∧
    (GenError.attrError : GenError) ≠ .http ⟨502, invalidJsonDetail⟩ :=
  ⟨rfl, by decide⟩

/-- C4 (amended): for every raw backend text that is not decodable JSON,
`generate_response` fails with the `UpstreamContractError`
(`HTTPException(502, "Model returned invalid JSON")`) and no assistant Turn
is appended; raw text that decodes to a non-object JSON value instead fails
with an unclassified `AttributeError` — still without appending an
assistant Turn.  In both cases the session is left with exactly the user
turn added. -/
theorem C4_contract_error_amended
    (chatParsed : List Turn → Except HTTPExc (Option Json))
    (synthesize : Json → Except HTTPExc SpeechPayload)
    (store : Store) (sid transcript : String) (ts : List Turn)
    (hs : lookupSession store sid = some ts) :
    (chatParsed (messagesFor ts transcript) = .ok none →
      generate_response chatParsed synthesize store sid transcript =
        (.error (.http ⟨502, invalidJsonDetail⟩),
          updateSession store sid (ts ++ [⟨"user", .jstr transcript⟩]))) ∧
    (∀ j, chatParsed (messagesFor ts transcript) = .ok (some j) → j.isObj = false →
      generate_response chatParsed synthesize store sid transcript =
        (.error .attrError,
          updateSession store sid (ts ++ [⟨"user", .jstr transcript⟩]))) ∧
    SessionStore.get_history
        (updateSession store sid (ts ++ [⟨"user", .jstr transcript⟩])) sid =
      .ok (ts ++ [⟨"user", .jstr transcript⟩]) := by
  refine ⟨?_, ?_, ?_⟩
  · intro hc
    exact generate_response_invalid_json chatParsed synthesize store sid transcript ts hs hc
  · intro j hc hj
    exact generate_response_nonobject chatParsed synthesize store sid transcript ts j hs hc hj
  · simp [SessionStore.get_history,
      lookupSession_update store sid ts (ts ++ [⟨"user", .jstr transcript⟩]) hs]

/-- Witness for C4 (amended) at a concrete store and parse outcomes. -/
theorem C4_contract_error_amended_witness :
    lookupSession [("s", [])] "s" = some [] ∧
    generate_response (fun _ => .ok none)
        (fun _ => .ok ⟨"audio/mpeg", "AA"⟩) [("s", [])] "s" "hi" =
      (.error (.http ⟨502, invalidJsonDetail⟩), [("s", [⟨"user", .jstr "hi"⟩])]) ∧
    generate_response (fun _ => .ok (some (.jarr [])))
        (fun _ => .ok ⟨"audio/mpeg", "AA"⟩) [("s", [])] "s" "hi" =
      (.error .attrError, [("s", [⟨"user", .jstr "hi"⟩])]) := by
  refine ⟨rfl, ?_, ?_⟩
  · exact (C4_contract_error_amended (fun _ => .ok none)
      (fun _ => .ok ⟨"audio/mpeg", "AA"⟩) [("s", [])] "s" "hi" [] rfl).1 rfl
  · exact (C4_contract_error_amended (fun _ => .ok (some (.jarr [])))
      (fun _ => .ok ⟨"audio/mpeg", "AA"⟩) [("s", [])] "s" "hi" [] rfl).2.1 (.jarr []) rfl rfl

/-- C5: on every successfully decoded object response (with a succeeding
synthesis), the run succeeds and per-field defaults apply independently:
absent or empty narration becomes the fixed fallback phrase, absent or
empty destination becomes `"General"`, absent directions become the empty
array, absent or empty mode becomes `"SPEAKING"`; every present non-empty
string or array field is passed through as provided — in particular the
mode pass-through holds for every non-empty string, with no validation
against the NAVIGATING/SPEAKING enum. -/
theorem C5_field_defaults
    (chatParsed : List Turn → Except HTTPExc (Option Json))
    (synthesize : Json → Except HTTPExc SpeechPayload)
    (store : Store) (sid transcript : String) (ts : List Turn)
    (fields : List (String × Json)) (payload : SpeechPayload)
    (hs : lookupSession store sid = some ts)
    (hc : chatParsed (messagesFor ts transcript) = .ok (some (.jobj fields)))
    (hsy : synthesize (fieldOr fields "narration" (.jstr narrationDefault)) = .ok payload)
    (out : Except GenError TurnResult × Store)
    (hout : out = generate_response chatParsed synthesize store sid transcript) :
    genOk out = true ∧
    ((jsonLookup fields "narration" = none ∨
        jsonLookup fields "narration" = some (.jstr "")) →
      resNarration out = .jstr narrationDefault) ∧
    (∀ s, s ≠ "" → jsonLookup fields "narration" = some (.jstr s) →
      resNarration out = .jstr s) ∧
    ((jsonLookup fields "destination" = none ∨
        jsonLookup fields "destination" = some (.jstr "")) →
      resDestination out = .jstr "General") ∧
    (∀ s, s ≠ "" → jsonLookup fields "destination" = some (.jstr s) →
      resDestination out = .jstr s) ∧
    (jsonLookup fields "directions" = none → resDirections out = .jarr []) ∧
    (∀ l, l ≠ [] → jsonLookup fields "directions" = some (.jarr l) →
      resDirections out = .jarr l) ∧
    ((jsonLookup fields "mode" = none ∨ jsonLookup fields "mode" = some (.jstr "")) →
      resMode out = .jstr "SPEAKING") ∧
    (∀ s, s ≠ "" → jsonLookup fields "mode" = some (.jstr s) → resMode out = .jstr s) := by
  subst hout
  rw [generate_response_object_ok chatParsed synthesize store sid transcript ts
    fields payload hs hc hsy]
  refine ⟨rfl, ?_, ?_, ?_, ?_, ?_, ?_, ?_, ?_⟩
  · rintro (h | h)
    · simp [resNarration, fieldOr_absent fields _ _ h]
    · simp [resNarration, fieldOr_empty_str fields _ _ h]
  · intro s hsne h
    simp [resNarration, fieldOr_str fields _ _ s hsne h]
  · rintro (h | h)
    · simp [resDestination, fieldOr_absent fields _ _ h]
    · simp [resDestination, fieldOr_empty_str fields _ _ h]
  · intro s hsne h
    simp [resDestination, fieldOr_str fields _ _ s hsne h]
  · intro h
    simp [resDirections, fieldOr_absent fields _ _ h]
  · intro l hlne h
    simp [resDirections, fieldOr_arr fields _ _ l hlne h]
  · rintro (h | h)
    · simp [resMode, fieldOr_absent fields _ _ h]
    · simp [resMode, fieldOr_empty_str fields _ _ h]
  · intro s hsne h
    simp [resMode, fieldOr_str fields _ _ s hsne h]

/-- Witness for C5 at a concrete decoded object: empty narration defaults,
absent destination and directions default, and the out-of-enum mode
`"WALKING"` is passed through unchanged. -/
theorem C5_field_defaults_witness :
    lookupSession [("s", [])] "s" = some [] ∧
    genOk (generate_response
        (fun _ => .ok (some (.jobj [("narration", .jstr ""), ("mode", .jstr "WALKING")])))
        (fun _ => .ok ⟨"audio/mpeg", "AA"⟩) [("s", [])] "s" "hi") = true ∧
    resNarration (generate_response
        (fun _ => .ok (some (.jobj [("narration", .jstr ""), ("mode", .jstr "WALKING")])))
        (fun _ => .ok ⟨"audio/mpeg", "AA"⟩) [("s", [])] "s" "hi") =
      .jstr narrationDefault ∧
    resDestination (generate_response
        (fun _ => .ok (some (.jobj [("narration", .jstr ""), ("mode", .jstr "WALKING")])))
        (fun _ => .ok ⟨"audio/mpeg", "AA"⟩) [("s", [])] "s" "hi") = .jstr "General" ∧
    resDirections (generate_response
        (fun _ => .ok (some (.jobj [("narration", .jstr ""), ("mode", .jstr "WALKING")])))
        (fun _ => .ok ⟨"audio/mpeg", "AA"⟩) [("s", [])] "s" "hi") = .jarr [] ∧
    resMode (generate_response
        (fun _ => .ok (some (.jobj [("narration", .jstr ""), ("mode", .jstr "WALKING")])))
        (fun _ => .ok ⟨"audio/mpeg", "AA"⟩) [("s", [])] "s" "hi") = .jstr "WALKING" := by
  have h := C5_field_defaults
    (fun _ => .ok (some (.jobj [("narration", .jstr ""), ("mode", .jstr "WALKING")])))
    (fun _ => .ok ⟨"audio/mpeg", "AA"⟩) [("s", [])] "s" "hi" []
    [("narration", .jstr ""), ("mode", .jstr "WALKING")] ⟨"audio/mpeg", "AA"⟩
    rfl rfl rfl _ rfl
  exact ⟨rfl, h.1, h.2.1 (Or.inr rfl), h.2.2.2.1 (Or.inl rfl),
    h.2.2.2.2.2.1 rfl, h.2.2.2.2.2.2.2.2 "WALKING" (by decide) rfl⟩

/-- C8: in a successful-decode run, the narration is committed to the
session as an assistant Turn before the speech collaborator runs, so a
synthesis failure propagates the collaborator's exception while the session
keeps the committed user and assistant turns — no rollback. -/
theorem C8_synth_failure_no_rollback
    (chatParsed : List Turn → Except HTTPExc (Option Json))
    (synthesize : Json → Except HTTPExc SpeechPayload)
    (store : Store) (sid transcript : String) (ts : List Turn)
    (fields : List (String × Json)) (e : HTTPExc)
    (hs : lookupSession store sid = some ts)
    (hc : chatParsed (messagesFor ts transcript) = .ok (some (.jobj fields)))
    (hsy : synthesize (fieldOr fields "narration" (.jstr narrationDefault)) = .error e) :
    (generate_response chatParsed synthesize store sid transcript).1 =
      .error (.http e) ∧
    SessionStore.get_history
        (generate_response chatParsed synthesize store sid transcript).2 sid =
      .ok (ts ++ [⟨"user", .jstr transcript⟩,
        ⟨"assistant", fieldOr fields "narration" (.jstr narrationDefault)⟩]) := by
  rw [generate_response_object_synth_error chatParsed synthesize store sid transcript ts
    fields e hs hc hsy]
  have hl := lookupSession_update store sid ts
    ((ts ++ [⟨"user", .jstr transcript⟩]) ++
      [⟨"assistant", fieldOr fields "narration" (.jstr narrationDefault)⟩]) hs
  constructor
  · rfl
  · simp only [SessionStore.get_history, hl]
    simp

/-- Witness for C8 at a concrete store and a failing synthesizer. -/
theorem C8_synth_failure_no_rollback_witness :
    lookupSession [("s", [])] "s" = some [] ∧
    (generate_response (fun _ => .ok (some (.jobj [("narration", .jstr "take a left")])))
        (fun _ => .error ⟨502, "TTS failed: boom"⟩) [("s", [])] "s" "hi").1 =
      .error (.http ⟨502, "TTS failed: boom"⟩) ∧
    SessionStore.get_history
        ((generate_response (fun _ => .ok (some (.jobj [("narration", .jstr "take a left")])))
          (fun _ => .error ⟨502, "TTS failed: boom"⟩) [("s", [])] "s" "hi").2) "s" =
      .ok [⟨"user", .jstr "hi"⟩, ⟨"assistant",
        fieldOr [("narration", .jstr "take a left")] "narration" (.jstr narrationDefault)⟩] := by
  have h := C8_synth_failure_no_rollback
    (fun _ => .ok (some (.jobj [("narration", .jstr "take a left")])))
    (fun _ => .error ⟨502, "TTS failed: boom"⟩) [("s", [])] "s" "hi" []
    [("narration", .jstr "take a left")] ⟨502, "TTS failed: boom"⟩ rfl rfl rfl
  exact ⟨rfl, h.1, h.2⟩

/-- C9: on an existing session, whenever `generate_response` fails after the
session lookup succeeded — a raised orchestration exception, the invalid-JSON
contract error, or the attribute error on a non-object decode — the user
transcript Turn appended at the start of the call is not rolled back: the
session's history afterwards equals its prior history plus exactly that one
user Turn. -/
theorem C9_user_turn_kept_on_failure
    (chatParsed : List Turn → Except HTTPExc (Option Json))
    (synthesize : Json → Except HTTPExc SpeechPayload)
    (store : Store) (sid transcript : String) (ts : List Turn)
    (hs : lookupSession store sid = some ts) :
    (∀ e, chatParsed (messagesFor ts transcript) = .error e →
      (generate_response chatParsed synthesize store sid transcript).1 =
        .error (.http e) ∧
      SessionStore.get_history
          (generate_response chatParsed synthesize store sid transcript).2 sid =
        .ok (ts ++ [⟨"user", .jstr transcript⟩])) ∧
    (chatParsed (messagesFor ts transcript) = .ok none →
      (generate_response chatParsed synthesize store sid transcript).1 =
        .error (.http ⟨502, invalidJsonDetail⟩) ∧
      SessionStore.get_history
          (generate_response chatParsed synthesize store sid transcript).2 sid =
        .ok (ts ++ [⟨"user", .jstr transcript⟩])) ∧
    (∀ j, chatParsed (messagesFor ts transcript) = .ok (some j) → j.isObj = false →
      (generate_response chatParsed synthesize store sid transcript).1 =
        .error .attrError ∧
      SessionStore.get_history
          (generate_response chatParsed synthesize store sid transcript).2 sid =
        .ok (ts ++ [⟨"user", .jstr transcript⟩])) := by
  have hl := lookupSession_update store sid ts (ts ++ [⟨"user", .jstr transcript⟩]) hs
  refine ⟨?_, ?_, ?_⟩
  · intro e hc
    rw [generate_response_chat_error chatParsed synthesize store sid transcript ts e hs hc]
    exact ⟨rfl, by simp [SessionStore.get_history, hl]⟩
  · intro hc
    rw [generate_response_invalid_json chatParsed synthesize store sid transcript ts hs hc]
    exact ⟨rfl, by simp [SessionStore.get_history, hl]⟩
  · intro j hc hj
    rw [generate_response_nonobject chatParsed synthesize store sid transcript ts j hs hc hj]
    exact ⟨rfl, by simp [SessionStore.get_history, hl]⟩

/-- Witness for C9 at a concrete store and a raised orchestration error. -/
theorem C9_user_turn_kept_on_failure_witness :
    lookupSession [("s", [⟨"assistant", .jstr "hello"⟩])] "s" =
      some [⟨"assistant", .jstr "hello"⟩] ∧
    (generate_response (fun _ => .error ⟨502, aggDetail []⟩)
        (fun _ => .ok ⟨"audio/mpeg", "AA"⟩)
        [("s", [⟨"assistant", .jstr "hello"⟩])] "s" "hi").1 =
      .error (.http ⟨502, aggDetail []⟩) ∧
    SessionStore.get_history
        ((generate_response (fun _ => .error ⟨502, aggDetail []⟩)
          (fun _ => .ok ⟨"audio/mpeg", "AA"⟩)
          [("s", [⟨"assistant", .jstr "hello"⟩])] "s" "hi").2) "s" =
      .ok [⟨"assistant", .jstr "hello"⟩, ⟨"user", .jstr "hi"⟩] := by
  have h := (C9_user_turn_kept_on_failure (fun _ => .error ⟨502, aggDetail []⟩)
    (fun _ => .ok ⟨"audio/mpeg", "AA"⟩) [("s", [⟨"assistant", .jstr "hello"⟩])] "s" "hi"
    [⟨"assistant", .jstr "hello"⟩] rfl).1 ⟨502, aggDetail []⟩ rfl
  exact ⟨rfl, h.1, h.2⟩
